import Mathlib

/-!
Verification development for the Basler color-difference analysis engine
(`glob_basler_cmd_delta_2v.py` and `lib_basler_cmd_delta_2v.py`).

The Python code is shallowly embedded:

* configuration constants from `glob_basler_cmd_delta_2v.py` are Lean constants
  with the same names;
* pure float plumbing (quality grading, bounds checks, the history store) is
  modelled over `ℚ` (every IEEE double is a rational number, and none of the
  modelled code paths involve transcendental functions or overflow);
* the delta-E formulas (`calculate_delta_e_76`, `calculate_delta_e_2000`,
  `calculate_color_differences`), which use `sqrt`/`sin`/`cos`/`arctan2`/`exp`,
  are modelled over `ℝ` as the exact real-number idealization of the float code;
* Python `round(x, p)` (round half to even) is `pyRound`, Python `int()`
  (truncate toward zero) is `pyInt`, Python integer `//` is `Int.fdiv`
  (floor division);
* the `deque(maxlen=N)` ring buffer is `dequeAppend` on lists;
* the persisted `.npy` snapshot file is threaded explicitly as an
  `Option Snapshot` value through the data-manager operations.
-/

set_option maxRecDepth 8000

namespace Basler

/-! ## Constants from `glob_basler_cmd_delta_2v.py` -/

/-- `VERSION = "1.0.0"` (line 11). -/
def VERSION : String := "1.0.0"

/-- `DEFAULT_SAMPLE_SIZE_CM = 1.0` (line 37). -/
def DEFAULT_SAMPLE_SIZE_CM : ℚ := 1

/-- `MIN_SAMPLE_SIZE_CM = 0.1` (line 38). -/
def MIN_SAMPLE_SIZE_CM : ℚ := 1/10

/-- `MAX_SAMPLE_SIZE_CM = 5.0` (line 39). -/
def MAX_SAMPLE_SIZE_CM : ℚ := 5

/-- `COLOR_DIFF_PRECISION = 1` (line 43): decimal places used by `round`. -/
def COLOR_DIFF_PRECISION : ℕ := 1

/-- `HISTORY_SIZE = 1000` (line 57): capacity of the history deque. -/
def HISTORY_SIZE : ℕ := 1000

/-- `QUALITY_GRADE_EXCELLENT = 1.0` (line 60). -/
def QUALITY_GRADE_EXCELLENT : ℚ := 1

/-- `QUALITY_GRADE_GOOD = 2.0` (line 61). -/
def QUALITY_GRADE_GOOD : ℚ := 2

/-- `QUALITY_GRADE_ACCEPTABLE = 3.0` (line 62). -/
def QUALITY_GRADE_ACCEPTABLE : ℚ := 3

/-- `QUALITY_GRADE_DEFECTIVE = 5.0` (line 63). -/
def QUALITY_GRADE_DEFECTIVE : ℚ := 5

/-- `HISTORY_AUTO_SAVE_INTERVAL = 10` (line 103). -/
def HISTORY_AUTO_SAVE_INTERVAL : ℕ := 10

/-- `DE_METHOD_CIE76 = "CIE76"` (line 187). -/
def DE_METHOD_CIE76 : String := "CIE76"

/-- `DE_METHOD_CIE2000 = "CIE2000"` (line 188). -/
def DE_METHOD_CIE2000 : String := "CIE2000"

/-- `DEFAULT_DE_METHOD = DE_METHOD_CIE76` (line 189). -/
def DEFAULT_DE_METHOD : String := DE_METHOD_CIE76

/-! ## Python numeric primitives -/

/-- Python `int(q)`: truncation toward zero. -/
def pyInt (q : ℚ) : ℤ := if 0 ≤ q then ⌊q⌋ else ⌈q⌉

/-- Round a real to the nearest integer, ties to the even integer.  This is the
exact-real idealization of Python 3's builtin `round` on one argument. -/
noncomputable def roundHalfEven (x : ℝ) : ℤ :=
  if x - ⌊x⌋ = 1/2 then (if Even ⌊x⌋ then ⌊x⌋ else ⌊x⌋ + 1) else round x

/-- Python `round(x, p)`: round to `p` decimal places (ties to even). -/
noncomputable def pyRound (p : ℕ) (x : ℝ) : ℝ :=
  (roundHalfEven (x * 10 ^ p) : ℝ) / 10 ^ p

/-! ## `get_quality_grade` (`glob_basler_cmd_delta_2v.py`, lines 326-339) -/

/-- `get_quality_grade(de_value)`: classify `abs(de_value)` against the four
ascending thresholds, boundary values going to the stricter grade. -/
def get_quality_grade (de_value : ℚ) : String :=
  let abs_de := |de_value|
  if abs_de ≤ QUALITY_GRADE_EXCELLENT then "excellent"
  else if abs_de ≤ QUALITY_GRADE_GOOD then "good"
  else if abs_de ≤ QUALITY_GRADE_ACCEPTABLE then "acceptable"
  else if abs_de ≤ QUALITY_GRADE_DEFECTIVE then "defective"
  else "out_of_range"

/-! ## `AdvancedColorAnalyzer` state and `set_sample_size`
(`lib_basler_cmd_delta_2v.py`, lines 355-381) -/

/-- A CIE LAB triple (the `np.float64` triple of the Python code). -/
structure Lab where
  L : ℝ
  a : ℝ
  b : ℝ

/-- The mutable state of `AdvancedColorAnalyzer` (`__init__`, lines 358-371).
`pixels_per_cm` and `sample_size_cm` are rational (plain float plumbing);
the LAB reference/calibration values live in `ℝ` like the delta-E math. -/
structure AnalyzerState where
  reference_lab : Lab
  calibration_lab : Option Lab
  is_calibrated : Bool
  sample_size_cm : ℚ
  pixels_per_cm : ℚ
  de_method : String

/-- The analyzer state right after `AdvancedColorAnalyzer.__init__`. -/
def initAnalyzer : AnalyzerState :=
  { reference_lab := ⟨50, 0, 0⟩
    calibration_lab := none
    is_calibrated := false
    sample_size_cm := DEFAULT_SAMPLE_SIZE_CM
    pixels_per_cm := 50
    de_method := DEFAULT_DE_METHOD }

/-- `set_sample_size(size_cm)` (lines 373-381): accept and store the new size
when `MIN_SAMPLE_SIZE_CM <= size_cm <= MAX_SAMPLE_SIZE_CM`, otherwise reject
with no mutation.  Returns the Python `bool` together with the new state. -/
def set_sample_size (s : AnalyzerState) (size_cm : ℚ) : Bool × AnalyzerState :=
  if MIN_SAMPLE_SIZE_CM ≤ size_cm ∧ size_cm ≤ MAX_SAMPLE_SIZE_CM then
    (true, { s with sample_size_cm := size_cm })
  else
    (false, s)

/-! ## Claim theorems (first group) -/

/-- Claim C3: `get_quality_grade` is total over all delta-E values,
classifying by absolute value against the ascending thresholds 1.0, 2.0, 3.0,
5.0 with boundary values belonging to the lower (stricter) grade: every input
gets exactly one of the five grades, and in particular 1.0 → excellent,
1.0001 → good, 3.0 → acceptable, 3.0001 → defective, 5.0 → defective,
5.0001 → out_of_range. -/
theorem get_quality_grade_spec :
    (∀ de : ℚ,
      get_quality_grade de = "excellent" ∨ get_quality_grade de = "good" ∨
      get_quality_grade de = "acceptable" ∨ get_quality_grade de = "defective" ∨
      get_quality_grade de = "out_of_range") ∧
    get_quality_grade 1 = "excellent" ∧
    get_quality_grade (10001/10000) = "good" ∧
    get_quality_grade 3 = "acceptable" ∧
    get_quality_grade (30001/10000) = "defective" ∧
    get_quality_grade 5 = "defective" ∧
    get_quality_grade (50001/10000) = "out_of_range" ∧
    (∀ de : ℚ,
      (get_quality_grade de = "excellent" ↔ |de| ≤ 1) ∧
      (get_quality_grade de = "good" ↔ 1 < |de| ∧ |de| ≤ 2) ∧
      (get_quality_grade de = "acceptable" ↔ 2 < |de| ∧ |de| ≤ 3) ∧
      (get_quality_grade de = "defective" ↔ 3 < |de| ∧ |de| ≤ 5) ∧
      (get_quality_grade de = "out_of_range" ↔ 5 < |de|)) := by
  have hval : ∀ q : ℚ, get_quality_grade q =
      (if |q| ≤ 1 then "excellent" else if |q| ≤ 2 then "good"
       else if |q| ≤ 3 then "acceptable" else if |q| ≤ 5 then "defective"
       else "out_of_range") := by
    intro q
    simp only [get_quality_grade, QUALITY_GRADE_EXCELLENT, QUALITY_GRADE_GOOD,
      QUALITY_GRADE_ACCEPTABLE, QUALITY_GRADE_DEFECTIVE]
  refine ⟨?_, ?_, ?_, ?_, ?_, ?_, ?_, ?_⟩
  · intro de
    rw [hval]
    split_ifs <;> simp
  · rw [hval]; norm_num
  · rw [hval, abs_of_nonneg (by norm_num : (0:ℚ) ≤ 10001/10000)]; norm_num
  · rw [hval]; norm_num
  · rw [hval, abs_of_nonneg (by norm_num : (0:ℚ) ≤ 30001/10000)]; norm_num
  · rw [hval]; norm_num
  · rw [hval, abs_of_nonneg (by norm_num : (0:ℚ) ≤ 50001/10000)]; norm_num
  · intro de
    rw [hval]
    split_ifs with h1 h2 h3 h4 <;>
      refine ⟨?_, ?_, ?_, ?_, ?_⟩ <;>
      constructor <;> intro hx <;> first
        | rfl
        | (constructor <;> linarith)
        | linarith
        | simp_all

/-- Claim C7: `set_sample_size` returns `false` and leaves the whole analyzer
state unchanged for every argument outside `[0.1, 5.0]`, and for every
argument inside the bound it stores that value and returns `true`. -/
theorem set_sample_size_spec (s : AnalyzerState) (size_cm : ℚ) :
    (size_cm < MIN_SAMPLE_SIZE_CM ∨ MAX_SAMPLE_SIZE_CM < size_cm →
      set_sample_size s size_cm = (false, s)) ∧
    (MIN_SAMPLE_SIZE_CM ≤ size_cm ∧ size_cm ≤ MAX_SAMPLE_SIZE_CM →
      set_sample_size s size_cm = (true, { s with sample_size_cm := size_cm })) := by
  constructor
  · intro h
    unfold set_sample_size
    rw [if_neg]
    rcases h with h | h
    · exact fun hc => absurd hc.1 (not_le.mpr h)
    · exact fun hc => absurd hc.2 (not_le.mpr h)
  · intro h
    unfold set_sample_size
    rw [if_pos h]

/-- Witness for C7: concretely, 0.05 and 6.0 are rejected without mutation
and 2.5 is accepted, starting from the freshly initialized analyzer. -/
theorem set_sample_size_spec_witness :
    set_sample_size initAnalyzer (1/20) = (false, initAnalyzer) ∧
    set_sample_size initAnalyzer 6 = (false, initAnalyzer) ∧
    set_sample_size initAnalyzer (5/2) =
      (true, { initAnalyzer with sample_size_cm := 5/2 }) :=
  ⟨(set_sample_size_spec initAnalyzer (1/20)).1 (Or.inl (by norm_num [MIN_SAMPLE_SIZE_CM])),
   (set_sample_size_spec initAnalyzer 6).1 (Or.inr (by norm_num [MAX_SAMPLE_SIZE_CM])),
   (set_sample_size_spec initAnalyzer (5/2)).2
     ⟨by norm_num [MIN_SAMPLE_SIZE_CM], by norm_num [MAX_SAMPLE_SIZE_CM]⟩⟩

/-! ## `AdvancedDataManager` (`lib_basler_cmd_delta_2v.py`, lines 651-933)

The `deque(maxlen=HISTORY_SIZE)` ring buffer is modelled on lists: appending
to a full deque discards the leftmost element first.  The persisted `.npy`
snapshot is threaded explicitly as an `Option Snapshot` value. -/

/-- One entry of `history_data`: the dict built in `add_data_point`
(lines 681-697), with the nested `lab`/`rgb` dicts flattened. -/
structure DataPoint where
  time : ℚ
  absolute_time : ℚ
  de : ℚ
  de76 : ℚ
  de2000 : ℚ
  dl : ℚ
  da : ℚ
  db : ℚ
  dc : ℚ
  dh : ℚ
  lab_l : ℚ
  lab_a : ℚ
  lab_b : ℚ
  rgb_r : ℚ
  rgb_g : ℚ
  rgb_b : ℚ
  calibrated : Bool
  sample_size_cm : ℚ
  de_method : String
deriving DecidableEq

/-- The fields of the analysis-result dict consumed by `add_data_point`
(`analyze_frame`'s result, lines 623-639), with nested dicts flattened.
The delta values are the already-rounded floats of the `color_diffs` dict. -/
structure AnalysisResult where
  timestamp : ℚ
  de : ℚ
  de76 : ℚ
  de2000 : ℚ
  dl : ℚ
  da : ℚ
  db : ℚ
  dc : ℚ
  dh : ℚ
  lab_l : ℚ
  lab_a : ℚ
  lab_b : ℚ
  rgb_r : ℚ
  rgb_g : ℚ
  rgb_b : ℚ
  calibrated : Bool
  sample_size_cm : ℚ
  de_method : String
deriving DecidableEq

/-- The mutable state of `AdvancedDataManager` (`__init__`, lines 654-667);
the statistics cache dict is modelled as a key/value list. -/
structure DMState where
  history_data : List DataPoint
  start_time : ℚ
  save_counter : ℕ
  last_save_time : ℚ
  stats_cache : List (String × ℚ)
  stats_cache_time : ℚ
deriving DecidableEq

/-- The snapshot dict written by `save_history` (lines 817-828); the
`settings` sub-dict holds only global constants and is omitted. -/
structure Snapshot where
  start_time : ℚ
  save_time : ℚ
  data : List DataPoint
  version : String
deriving DecidableEq

/-- `deque(maxlen := N).append x`: append on the right, evicting from the
left whatever exceeds the capacity `N`. -/
def dequeAppend (N : ℕ) (xs : List α) (x : α) : List α :=
  (xs ++ [x]).drop ((xs ++ [x]).length - N)

/-- The data point constructed by `add_data_point` (lines 679-697) from a
session start time and an analysis result. -/
def mkDataPoint (start_time : ℚ) (r : AnalysisResult) : DataPoint :=
  { time := r.timestamp - start_time
    absolute_time := r.timestamp
    de := r.de
    de76 := r.de76
    de2000 := r.de2000
    dl := r.dl
    da := r.da
    db := r.db
    dc := r.dc
    dh := r.dh
    lab_l := r.lab_l
    lab_a := r.lab_a
    lab_b := r.lab_b
    rgb_r := r.rgb_r
    rgb_g := r.rgb_g
    rgb_b := r.rgb_b
    calibrated := r.calibrated
    sample_size_cm := r.sample_size_cm
    de_method := r.de_method }

/-- `save_history()` (lines 811-839): an empty history returns `True`
without touching the persisted snapshot; otherwise the snapshot dict is
written and `last_save_time` updated.  `now` stands for `time.time()`. -/
def save_history (s : DMState) (now : ℚ) (file : Option Snapshot) :
    Bool × DMState × Option Snapshot :=
  if s.history_data.length = 0 then (true, s, file)
  else
    (true, { s with last_save_time := now },
      some { start_time := s.start_time, save_time := now,
             data := s.history_data, version := VERSION })

/-- `load_history()` (lines 841-869): a missing file returns `False`;
otherwise each stored point is rebased by
`time_offset = start_time - saved_start_time` and appended to the deque. -/
def load_history (s : DMState) (file : Option Snapshot) : Bool × DMState :=
  match file with
  | none => (false, s)
  | some snap =>
      let time_offset := s.start_time - snap.start_time
      let adjusted := snap.data.map (fun p => { p with time := p.time - time_offset })
      (true, { s with
        history_data := List.foldl (dequeAppend HISTORY_SIZE) s.history_data adjusted })

/-- `add_data_point(analysis_result)` (lines 672-714): `None` input returns
`False` with no state change; otherwise the point is appended to the deque,
the save counter bumped (with an auto-save every
`HISTORY_AUTO_SAVE_INTERVAL` appends) and the statistics cache invalidated. -/
def add_data_point (s : DMState) (now : ℚ) (file : Option Snapshot)
    (analysis_result : Option AnalysisResult) : Bool × DMState × Option Snapshot :=
  match analysis_result with
  | none => (false, s, file)
  | some r =>
      let s1 := { s with
        history_data := dequeAppend HISTORY_SIZE s.history_data (mkDataPoint s.start_time r)
        save_counter := s.save_counter + 1 }
      if HISTORY_AUTO_SAVE_INTERVAL ≤ s1.save_counter then
        let saved := save_history s1 now file
        (true, { saved.2.1 with save_counter := 0, stats_cache_time := 0 }, saved.2.2)
      else
        (true, { s1 with stats_cache_time := 0 }, file)

/-- The state of a data manager right after construction, before any append
(`__init__` with no pre-existing history file). -/
def initDM (t : ℚ) : DMState :=
  { history_data := []
    start_time := t
    save_counter := 0
    last_save_time := t
    stats_cache := []
    stats_cache_time := 0 }

/-! ### Generic facts about the bounded deque -/

lemma dequeAppend_length_le (N : ℕ) (xs : List α) (x : α) (h : xs.length ≤ N) :
    (dequeAppend N xs x).length ≤ N := by
  simp only [dequeAppend, List.length_drop, List.length_append,
    List.length_singleton]
  omega

lemma foldl_dequeAppend (N : ℕ) :
    ∀ (l xs : List α), xs.length ≤ N →
      List.foldl (dequeAppend N) xs l = (xs ++ l).drop (xs.length + l.length - N) := by
  intro l
  induction l with
  | nil =>
      intro xs h
      have h0 : xs.length + List.length ([] : List α) - N = 0 := by
        simp only [List.length_nil]
        omega
      rw [List.foldl_nil, h0, List.drop_zero, List.append_nil]
  | cons x t ih =>
      intro xs h
      have hd : dequeAppend N xs x = (xs ++ [x]).drop (xs.length + 1 - N) := by
        simp [dequeAppend]
      have hlen : (dequeAppend N xs x).length ≤ N := dequeAppend_length_le N xs x h
      rw [List.foldl_cons, ih _ hlen, hd]
      rw [← List.drop_append_of_le_length (by simp), List.drop_drop]
      have hxlen : ((xs ++ [x]).drop (xs.length + 1 - N)).length
          = xs.length + 1 - (xs.length + 1 - N) := by
        simp
      rw [hxlen, List.append_assoc, List.singleton_append]
      congr 1
      simp only [List.length_cons]
      omega

lemma foldl_dequeAppend_nil (N : ℕ) (l : List α) :
    List.foldl (dequeAppend N) [] l = l.drop (l.length - N) := by
  have := foldl_dequeAppend N l [] (by simp)
  simpa using this

lemma foldl_dequeAppend_of_le (N : ℕ) (l : List α) (h : l.length ≤ N) :
    List.foldl (dequeAppend N) [] l = l := by
  rw [foldl_dequeAppend_nil]
  have : l.length - N = 0 := by omega
  rw [this, List.drop_zero]

lemma dequeAppend_full (N : ℕ) (xs : List α) (x : α) (hN : 0 < N)
    (h : xs.length = N) : dequeAppend N xs x = xs.tail ++ [x] := by
  unfold dequeAppend
  have h1 : (xs ++ [x]).length - N = 1 := by simp [h]
  rw [h1, List.drop_append_of_le_length (by omega), List.drop_one]

/-! ## Claim theorems (data manager) -/

/-- Claim C5: the history store is a fixed-capacity FIFO of capacity
`HISTORY_SIZE = 1000`: for every sequence of appends the count never exceeds
the capacity and the content is exactly the last-`N` suffix of the appended
sequence in insertion order; a full store evicts exactly the oldest entry on
each append; `add_data_point` appends through exactly this deque operation;
and appending `N+1` distinct entries leaves exactly `N` entries with the
first evicted and the newest present. -/
theorem history_fifo_spec :
    (∀ l : List DataPoint,
      (List.foldl (dequeAppend HISTORY_SIZE) [] l).length ≤ HISTORY_SIZE) ∧
    (∀ l : List DataPoint,
      List.foldl (dequeAppend HISTORY_SIZE) [] l = l.drop (l.length - HISTORY_SIZE)) ∧
    (∀ (xs : List DataPoint) (x : DataPoint), xs.length = HISTORY_SIZE →
      dequeAppend HISTORY_SIZE xs x = xs.tail ++ [x]) ∧
    (∀ (s : DMState) (now : ℚ) (file : Option Snapshot) (r : AnalysisResult),
      (add_data_point s now file (some r)).2.1.history_data =
        dequeAppend HISTORY_SIZE s.history_data (mkDataPoint s.start_time r)) ∧
    (∀ l : List DataPoint, l.length = HISTORY_SIZE + 1 →
      List.foldl (dequeAppend HISTORY_SIZE) [] l = l.tail ∧
      (List.foldl (dequeAppend HISTORY_SIZE) [] l).length = HISTORY_SIZE ∧
      (∀ h : l ≠ [], l.getLast h ∈ List.foldl (dequeAppend HISTORY_SIZE) [] l) ∧
      (l.Nodup → ∀ h : l ≠ [], l.head h ∉ List.foldl (dequeAppend HISTORY_SIZE) [] l)) := by
  refine ⟨?_, ?_, ?_, ?_, ?_⟩
  · intro l
    rw [foldl_dequeAppend_nil]
    simp only [List.length_drop]
    omega
  · intro l
    exact foldl_dequeAppend_nil _ l
  · intro xs x h
    exact dequeAppend_full _ xs x (by norm_num [HISTORY_SIZE]) h
  · intro s now file r
    unfold add_data_point
    dsimp only
    split
    · unfold save_history
      dsimp only
      split <;> rfl
    · rfl
  · intro l hlen
    have htail : List.foldl (dequeAppend HISTORY_SIZE) [] l = l.tail := by
      rw [foldl_dequeAppend_nil, hlen]
      simp [List.drop_one]
    refine ⟨htail, ?_, ?_, ?_⟩
    · rw [htail, List.length_tail, hlen]
      omega
    · intro h
      rw [htail]
      match l, hlen with
      | a :: t, hlen =>
          have ht : t ≠ [] := by
            intro e
            rw [e] at hlen
            simp [HISTORY_SIZE] at hlen
          rw [List.getLast_cons ht, List.tail_cons]
          exact List.getLast_mem ht
    · intro hnd h
      rw [htail]
      match l, hnd with
      | a :: t, hnd =>
          rw [List.head_cons, List.tail_cons]
          exact (List.nodup_cons.mp hnd).1

/-- Claim C9: `add_data_point` called with `None` returns `False` and leaves
the data-manager state (history, save counter, statistics cache) and the
persisted snapshot entirely unchanged. -/
theorem add_data_point_none_spec (s : DMState) (now : ℚ) (file : Option Snapshot) :
    add_data_point s now file none = (false, s, file) := rfl

/-- Claim C6 (amended: the saved store holds at least one entry): saving the
history and loading the snapshot into a fresh empty store succeeds and
reproduces the same entry count and the same delta-E values in the same
order, with each entry's `time` rebased by the delta between the snapshot's
recorded start time and the loading session's start time. -/
theorem save_load_roundtrip_spec (s s2 : DMState) (file : Option Snapshot) (now : ℚ)
    (hne : s.history_data ≠ [])
    (hlen : s.history_data.length ≤ HISTORY_SIZE)
    (hfresh : s2.history_data = []) :
    (load_history s2 (save_history s now file).2.2).1 = true ∧
    (load_history s2 (save_history s now file).2.2).2.history_data.length
      = s.history_data.length ∧
    (load_history s2 (save_history s now file).2.2).2.history_data.map DataPoint.de
      = s.history_data.map DataPoint.de ∧
    (load_history s2 (save_history s now file).2.2).2.history_data.map DataPoint.time
      = s.history_data.map (fun p => p.time - (s2.start_time - s.start_time)) := by
  have hsave : (save_history s now file).2.2 =
      some { start_time := s.start_time, save_time := now,
             data := s.history_data, version := VERSION } := by
    unfold save_history
    rw [if_neg (by simpa [List.length_eq_zero] using hne)]
  rw [hsave]
  unfold load_history
  have hload : List.foldl (dequeAppend HISTORY_SIZE) s2.history_data
      (s.history_data.map (fun p => { p with time := p.time - (s2.start_time - s.start_time) }))
      = s.history_data.map (fun p => { p with time := p.time - (s2.start_time - s.start_time) }) := by
    rw [hfresh]
    exact foldl_dequeAppend_of_le _ _ (by simpa using hlen)
  refine ⟨rfl, ?_, ?_, ?_⟩
  · simp only [hload, List.length_map]
  · simp only [hload, List.map_map]
    rfl
  · simp only [hload, List.map_map]
    rfl

/-- A concrete history entry used in witnesses. -/
def samplePoint : DataPoint :=
  { time := 0, absolute_time := 0, de := 1, de76 := 1, de2000 := 1,
    dl := 0, da := 0, db := 0, dc := 0, dh := 0,
    lab_l := 50, lab_a := 0, lab_b := 0, rgb_r := 100, rgb_g := 100, rgb_b := 100,
    calibrated := false, sample_size_cm := 1, de_method := "CIE76" }

/-- A stale persisted snapshot containing one entry, as left behind by an
earlier session. -/
def staleSnap : Snapshot :=
  { start_time := 0, save_time := 0, data := [samplePoint], version := VERSION }

/-- Counterexample to Claim C6 as stated: for an empty store in a session
whose persisted file still holds a stale one-entry snapshot, `save_history`
returns `True` without writing, and the subsequent load into a fresh store
restores the stale entry — the entry count (1) differs from the saved
store's count (0). -/
theorem save_load_roundtrip_cex :
    (load_history (initDM 10) ((save_history (initDM 5) 7 (some staleSnap)).2.2)).2.history_data.length
      ≠ (initDM 5).history_data.length := by
  have hsave : (save_history (initDM 5) 7 (some staleSnap)).2.2 = some staleSnap := rfl
  have hfold : ∀ q : DataPoint, List.foldl (dequeAppend HISTORY_SIZE) [] [q] = [q] :=
    fun q => foldl_dequeAppend_of_le _ _ (by norm_num [HISTORY_SIZE])
  rw [hsave]
  simp only [load_history, staleSnap, initDM, List.map_cons, List.map_nil, hfold,
    List.length_cons, List.length_nil]
  norm_num

/-- Witness for C6 (amended): a concrete non-empty store round-trips. -/
theorem save_load_roundtrip_spec_witness :
    (load_history (initDM 10) ((save_history { initDM 5 with history_data := [samplePoint] } 7 none).2.2)).1 = true ∧
    (load_history (initDM 10) ((save_history { initDM 5 with history_data := [samplePoint] } 7 none).2.2)).2.history_data.length
      = ({ initDM 5 with history_data := [samplePoint] } : DMState).history_data.length ∧
    (load_history (initDM 10) ((save_history { initDM 5 with history_data := [samplePoint] } 7 none).2.2)).2.history_data.map DataPoint.de
      = ({ initDM 5 with history_data := [samplePoint] } : DMState).history_data.map DataPoint.de ∧
    (load_history (initDM 10) ((save_history { initDM 5 with history_data := [samplePoint] } 7 none).2.2)).2.history_data.map DataPoint.time
      = ({ initDM 5 with history_data := [samplePoint] } : DMState).history_data.map
          (fun p => p.time - ((initDM 10).start_time - ({ initDM 5 with history_data := [samplePoint] } : DMState).start_time)) :=
  save_load_roundtrip_spec { initDM 5 with history_data := [samplePoint] } (initDM 10) none 7
    (by simp) (by simp [HISTORY_SIZE]) rfl

/-- Claim C10: `save_history` on an empty store returns `True` without
writing, leaving any older persisted snapshot in place, and a subsequent
load into a fresh store restores that older snapshot's data (rebased) rather
than the empty state. -/
theorem save_history_empty_spec (s : DMState) (file : Option Snapshot) (now : ℚ)
    (h : s.history_data = []) :
    save_history s now file = (true, s, file) ∧
    (∀ (s2 : DMState) (snap : Snapshot), file = some snap → s2.history_data = [] →
      snap.data.length ≤ HISTORY_SIZE →
      (load_history s2 (save_history s now file).2.2).2.history_data =
        snap.data.map (fun p => { p with time := p.time - (s2.start_time - snap.start_time) })) := by
  have hsave : save_history s now file = (true, s, file) := by
    unfold save_history
    rw [if_pos (by simp [h])]
  refine ⟨hsave, ?_⟩
  intro s2 snap hfile hfresh hlen
  rw [hsave, hfile]
  unfold load_history
  simp only
  rw [hfresh]
  exact foldl_dequeAppend_of_le _ _ (by simpa using hlen)

/-- Witness for C10 at a concrete empty store with a stale snapshot. -/
theorem save_history_empty_spec_witness :
    save_history (initDM 5) 7 (some staleSnap) = (true, initDM 5, some staleSnap) ∧
    (load_history (initDM 10) ((save_history (initDM 5) 7 (some staleSnap)).2.2)).2.history_data =
      staleSnap.data.map (fun p => { p with time := p.time - ((initDM 10).start_time - staleSnap.start_time) }) := by
  have h := save_history_empty_spec (initDM 5) (some staleSnap) 7 rfl
  exact ⟨h.1, h.2 (initDM 10) staleSnap rfl rfl (by simp [staleSnap, HISTORY_SIZE])⟩

/-- A full store: `HISTORY_SIZE` copies of the sample entry. -/
def fullHistory : List DataPoint := List.replicate HISTORY_SIZE samplePoint

/-- The sample entry with its `time` field set to `i`. -/
def samplePointAt (i : ℕ) : DataPoint := { samplePoint with time := (i : ℚ) }

/-- `HISTORY_SIZE + 1` pairwise distinct entries (distinct `time` fields). -/
def overflowHistory : List DataPoint :=
  (List.range (HISTORY_SIZE + 1)).map samplePointAt

/-- Witness for C5: with a full store of 1000 entries one further append
evicts exactly the oldest; a sequence of 1001 distinct entries leaves the
last 1000 with the newest present and the first evicted. -/
theorem history_fifo_spec_witness :
    (dequeAppend HISTORY_SIZE fullHistory samplePoint
      = fullHistory.tail ++ [samplePoint]) ∧
    (List.foldl (dequeAppend HISTORY_SIZE) [] overflowHistory = overflowHistory.tail) ∧
    (List.foldl (dequeAppend HISTORY_SIZE) [] overflowHistory).length = HISTORY_SIZE := by
  have hfull : fullHistory.length = HISTORY_SIZE := List.length_replicate _ _
  have hlen : overflowHistory.length = HISTORY_SIZE + 1 := by
    rw [overflowHistory, List.length_map, List.length_range]
  refine ⟨history_fifo_spec.2.2.1 _ _ hfull,
    (history_fifo_spec.2.2.2.2 _ hlen).1,
    (history_fifo_spec.2.2.2.2 _ hlen).2.1⟩

/-! ## Delta-E formulas (`lib_basler_cmd_delta_2v.py`, lines 411-567)

Exact real-number embedding of the float formulas.  Each intermediate
quantity of the ten-step CIEDE2000 computation (lines 468-563) is a named
definition; `calculate_delta_e_2000` assembles them exactly as Step 10 does.
`arctan2 y x` is `np.arctan2(y, x)` (the argument of the complex number
`x + i·y`, in `(-π, π]`, with `arctan2 0 0 = 0`). -/

noncomputable section

/-- `np.arctan2(y, x)`. -/
def arctan2 (y x : ℝ) : ℝ := Complex.arg ⟨x, y⟩

/-- `np.degrees`. -/
def toDegrees (x : ℝ) : ℝ := x * 180 / Real.pi

/-- `np.radians`. -/
def toRadians (x : ℝ) : ℝ := x * Real.pi / 180

/-- `CIEDE2000_KL = 1.0` (`glob_basler_cmd_delta_2v.py`, line 192). -/
def CIEDE2000_KL : ℝ := 1

/-- `CIEDE2000_KC = 1.0` (line 193). -/
def CIEDE2000_KC : ℝ := 1

/-- `CIEDE2000_KH = 1.0` (line 194). -/
def CIEDE2000_KH : ℝ := 1

/-- `calculate_delta_e_76(lab1, lab2)` (lines 462-466): Euclidean distance. -/
def calculate_delta_e_76 (lab1 lab2 : Lab) : ℝ :=
  Real.sqrt ((lab2.L - lab1.L)^2 + (lab2.a - lab1.a)^2 + (lab2.b - lab1.b)^2)

/-- Step 1 (lines 482-483): `C = sqrt(a² + b²)`. -/
def chroma (l : Lab) : ℝ := Real.sqrt (l.a^2 + l.b^2)

/-- Step 1 (line 484): `C_avg = (C1 + C2)/2`. -/
def cAvg (l1 l2 : Lab) : ℝ := (chroma l1 + chroma l2) / 2

/-- Step 2 (lines 487-488): `G = 0.5·(1 − sqrt(C_avg⁷/(C_avg⁷+25⁷)))`. -/
def gFactor (l1 l2 : Lab) : ℝ :=
  0.5 * (1 - Real.sqrt ((cAvg l1 l2)^7 / ((cAvg l1 l2)^7 + 25^7)))

/-- Step 3 (lines 491-492): `a' = (1+G)·a` of the first color. -/
def aPrime (l1 l2 : Lab) : ℝ := (1 + gFactor l1 l2) * l1.a

/-- Step 4 (lines 495-496): `C' = sqrt(a'² + b²)` of the first color
(`aPrime l2 l1` and `cPrime l2 l1` are `a'2`/`C'2`, since `G` is symmetric). -/
def cPrime (l1 l2 : Lab) : ℝ := Real.sqrt ((aPrime l1 l2)^2 + l1.b^2)

/-- Step 5 (lines 499-511): hue angle in degrees in `[0, 360)`, with the
degenerate `a' = 0 and b = 0` case mapped to `0`. -/
def hPrimeDeg (aP b : ℝ) : ℝ :=
  if aP = 0 ∧ b = 0 then 0
  else toDegrees (if arctan2 b aP < 0 then arctan2 b aP + 2 * Real.pi else arctan2 b aP)

/-- Step 5: `h'` of the first color. -/
def hPrime (l1 l2 : Lab) : ℝ := hPrimeDeg (aPrime l1 l2) l1.b

/-- Step 6 (lines 520-523): wrap a raw hue difference into `[-180, 180]`. -/
def adjustHueDiff (x : ℝ) : ℝ :=
  if x > 180 then x - 360 else if x < -180 then x + 360 else x

/-- Step 6 (line 514): `ΔL' = L2 − L1`. -/
def deltaLPrime (l1 l2 : Lab) : ℝ := l2.L - l1.L

/-- Step 6 (line 515): `ΔC' = C'2 − C'1`. -/
def deltaCPrime (l1 l2 : Lab) : ℝ := cPrime l2 l1 - cPrime l1 l2

/-- Step 6 (lines 517-523): `Δh'`, zero when either chroma is zero. -/
def deltaSmallHPrime (l1 l2 : Lab) : ℝ :=
  if cPrime l1 l2 * cPrime l2 l1 ≠ 0 then adjustHueDiff (hPrime l2 l1 - hPrime l1 l2)
  else 0

/-- Step 6 (line 525): `ΔH' = 2·sqrt(C'1·C'2)·sin(radians(Δh')/2)`. -/
def deltaBigHPrime (l1 l2 : Lab) : ℝ :=
  2 * Real.sqrt (cPrime l1 l2 * cPrime l2 l1) *
    Real.sin (toRadians (deltaSmallHPrime l1 l2) / 2)

/-- Step 7 (line 528): `L'_avg`. -/
def lPrimeAvg (l1 l2 : Lab) : ℝ := (l1.L + l2.L) / 2

/-- Step 7 (line 529): `C'_avg`. -/
def cPrimeAvg (l1 l2 : Lab) : ℝ := (cPrime l1 l2 + cPrime l2 l1) / 2

/-- Step 7 (lines 531-538): `h'_avg` with the CIE2000 wrap-around rule; when
either chroma is zero the sum is kept unhalved, as in the source. -/
def hPrimeAvg (l1 l2 : Lab) : ℝ :=
  if cPrime l1 l2 * cPrime l2 l1 ≠ 0 then
    (if |hPrime l1 l2 - hPrime l2 l1| > 180 then
      (if hPrime l1 l2 + hPrime l2 l1 < 360 then hPrime l1 l2 + hPrime l2 l1 + 360
       else hPrime l1 l2 + hPrime l2 l1 - 360)
     else hPrime l1 l2 + hPrime l2 l1) / 2
  else hPrime l1 l2 + hPrime l2 l1

/-- Step 7 (lines 540-543): the `T` factor. -/
def tFactor (l1 l2 : Lab) : ℝ :=
  1 - 0.17 * Real.cos (toRadians (hPrimeAvg l1 l2 - 30))
    + 0.24 * Real.cos (toRadians (2 * hPrimeAvg l1 l2))
    + 0.32 * Real.cos (toRadians (3 * hPrimeAvg l1 l2 + 6))
    - 0.20 * Real.cos (toRadians (4 * hPrimeAvg l1 l2 - 63))

/-- Step 8 (line 546): `S_L`. -/
def sWeightL (l1 l2 : Lab) : ℝ :=
  1 + (0.015 * (lPrimeAvg l1 l2 - 50)^2) / Real.sqrt (20 + (lPrimeAvg l1 l2 - 50)^2)

/-- Step 8 (line 547): `S_C`. -/
def sWeightC (l1 l2 : Lab) : ℝ := 1 + 0.045 * cPrimeAvg l1 l2

/-- Step 8 (line 548): `S_H`. -/
def sWeightH (l1 l2 : Lab) : ℝ := 1 + 0.015 * cPrimeAvg l1 l2 * tFactor l1 l2

/-- Step 9 (line 551): `Δθ = 30·exp(−((h'_avg−275)/25)²)`. -/
def deltaTheta (l1 l2 : Lab) : ℝ :=
  30 * Real.exp (-(((hPrimeAvg l1 l2 - 275) / 25)^2))

/-- Step 9 (line 552): `R_C`. -/
def rotC (l1 l2 : Lab) : ℝ :=
  2 * Real.sqrt ((cPrimeAvg l1 l2)^7 / ((cPrimeAvg l1 l2)^7 + 25^7))

/-- Step 9 (line 553): `R_T = −R_C·sin(radians(2Δθ))`. -/
def rotT (l1 l2 : Lab) : ℝ :=
  -(rotC l1 l2) * Real.sin (toRadians (2 * deltaTheta l1 l2))

/-- `calculate_delta_e_2000(lab1, lab2, k_L, k_C, k_H)` (lines 468-563),
Step 10.  At the call in `calculate_color_differences` the weights default to
`CIEDE2000_KL`, `CIEDE2000_KC`, `CIEDE2000_KH` (the Python `k or default`
resolution of the `None` defaults). -/
def calculate_delta_e_2000 (kL kC kH : ℝ) (lab1 lab2 : Lab) : ℝ :=
  Real.sqrt
    ((deltaLPrime lab1 lab2 / (kL * sWeightL lab1 lab2))^2
      + (deltaCPrime lab1 lab2 / (kC * sWeightC lab1 lab2))^2
      + (deltaBigHPrime lab1 lab2 / (kH * sWeightH lab1 lab2))^2
      + rotT lab1 lab2 * (deltaCPrime lab1 lab2 / (kC * sWeightC lab1 lab2))
          * (deltaBigHPrime lab1 lab2 / (kH * sWeightH lab1 lab2)))

/-- The dict returned by `calculate_color_differences` (lines 444-453). -/
structure ColorDiffs where
  dl : ℝ
  da : ℝ
  db : ℝ
  dc : ℝ
  dh : ℝ
  de76 : ℝ
  de2000 : ℝ
  de : ℝ

/-- `calculate_color_differences(lab1, lab2)` (lines 411-460), parametrized
by the analyzer's current `de_method`.  Note line 442: the CIEDE2000 value is
computed only when the selected method is `DE_METHOD_CIE2000`; otherwise the
`de2000` entry receives the CIE76 value. -/
def calculate_color_differences (de_method : String) (lab1 lab2 : Lab) : ColorDiffs :=
  let dl := lab2.L - lab1.L
  let da := lab2.a - lab1.a
  let db := lab2.b - lab1.b
  let c1 := Real.sqrt (lab1.a^2 + lab1.b^2)
  let c2 := Real.sqrt (lab2.a^2 + lab2.b^2)
  let dc := c2 - c1
  let h1 := if c1 > 0 then arctan2 lab1.b lab1.a else 0
  let h2 := if c2 > 0 then arctan2 lab2.b lab2.a else 0
  let dhueRaw := h2 - h1
  let dhue := if dhueRaw > Real.pi then dhueRaw - 2 * Real.pi
    else if dhueRaw < -Real.pi then dhueRaw + 2 * Real.pi else dhueRaw
  let dh := if c1 * c2 = 0 then 0 else 2 * Real.sqrt (c1 * c2) * Real.sin (dhue / 2)
  let de_76 := calculate_delta_e_76 lab1 lab2
  let de_2000 := if de_method = DE_METHOD_CIE2000 then
      calculate_delta_e_2000 CIEDE2000_KL CIEDE2000_KC CIEDE2000_KH lab1 lab2
    else de_76
  { dl := pyRound COLOR_DIFF_PRECISION dl
    da := pyRound COLOR_DIFF_PRECISION da
    db := pyRound COLOR_DIFF_PRECISION db
    dc := pyRound COLOR_DIFF_PRECISION dc
    dh := pyRound COLOR_DIFF_PRECISION dh
    de76 := pyRound COLOR_DIFF_PRECISION de_76
    de2000 := pyRound COLOR_DIFF_PRECISION de_2000
    de := pyRound COLOR_DIFF_PRECISION
      (if de_method = DE_METHOD_CIE2000 then de_2000 else de_76) }

end

/-! ### Identity and symmetry of the delta-E formulas -/

lemma adjustHueDiff_zero : adjustHueDiff 0 = 0 := by
  unfold adjustHueDiff
  split_ifs <;> (first | rfl | linarith)

lemma adjustHueDiff_neg (x : ℝ) : adjustHueDiff (-x) = -adjustHueDiff x := by
  unfold adjustHueDiff
  split_ifs <;> (first | ring1 | linarith)

lemma toRadians_zero : toRadians 0 = 0 := by
  unfold toRadians
  ring

lemma toRadians_neg (x : ℝ) : toRadians (-x) = -toRadians x := by
  unfold toRadians
  ring

lemma deltaLPrime_self (l : Lab) : deltaLPrime l l = 0 := sub_self _

lemma deltaCPrime_self (l : Lab) : deltaCPrime l l = 0 := sub_self _

lemma deltaSmallHPrime_self (l : Lab) : deltaSmallHPrime l l = 0 := by
  unfold deltaSmallHPrime
  split_ifs <;> simp [adjustHueDiff_zero]

lemma deltaBigHPrime_self (l : Lab) : deltaBigHPrime l l = 0 := by
  unfold deltaBigHPrime
  rw [deltaSmallHPrime_self, toRadians_zero, zero_div, Real.sin_zero, mul_zero]

lemma calculate_delta_e_76_self (l : Lab) : calculate_delta_e_76 l l = 0 := by
  unfold calculate_delta_e_76
  simp

lemma calculate_delta_e_2000_self (kL kC kH : ℝ) (l : Lab) :
    calculate_delta_e_2000 kL kC kH l l = 0 := by
  unfold calculate_delta_e_2000
  rw [deltaLPrime_self, deltaCPrime_self, deltaBigHPrime_self]
  simp

lemma cAvg_comm (l1 l2 : Lab) : cAvg l2 l1 = cAvg l1 l2 := by
  unfold cAvg
  ring

lemma gFactor_comm (l1 l2 : Lab) : gFactor l2 l1 = gFactor l1 l2 := by
  unfold gFactor
  rw [cAvg_comm]

lemma deltaLPrime_antisymm (l1 l2 : Lab) : deltaLPrime l2 l1 = -deltaLPrime l1 l2 := by
  unfold deltaLPrime
  ring

lemma deltaCPrime_antisymm (l1 l2 : Lab) : deltaCPrime l2 l1 = -deltaCPrime l1 l2 := by
  unfold deltaCPrime
  ring

lemma deltaSmallHPrime_antisymm (l1 l2 : Lab) :
    deltaSmallHPrime l2 l1 = -deltaSmallHPrime l1 l2 := by
  unfold deltaSmallHPrime
  rw [mul_comm (cPrime l2 l1) (cPrime l1 l2)]
  split_ifs
  · rw [show hPrime l1 l2 - hPrime l2 l1 = -(hPrime l2 l1 - hPrime l1 l2) by ring,
      adjustHueDiff_neg]
  · rw [neg_zero]

lemma deltaBigHPrime_antisymm (l1 l2 : Lab) :
    deltaBigHPrime l2 l1 = -deltaBigHPrime l1 l2 := by
  unfold deltaBigHPrime
  rw [mul_comm (cPrime l2 l1) (cPrime l1 l2), deltaSmallHPrime_antisymm,
    toRadians_neg, neg_div, Real.sin_neg]
  ring

lemma hPrimeAvg_comm (l1 l2 : Lab) : hPrimeAvg l2 l1 = hPrimeAvg l1 l2 := by
  unfold hPrimeAvg
  rw [mul_comm (cPrime l2 l1) (cPrime l1 l2), abs_sub_comm,
    add_comm (hPrime l2 l1) (hPrime l1 l2)]

lemma lPrimeAvg_comm (l1 l2 : Lab) : lPrimeAvg l2 l1 = lPrimeAvg l1 l2 := by
  unfold lPrimeAvg
  ring

lemma cPrimeAvg_comm (l1 l2 : Lab) : cPrimeAvg l2 l1 = cPrimeAvg l1 l2 := by
  unfold cPrimeAvg
  ring

lemma tFactor_comm (l1 l2 : Lab) : tFactor l2 l1 = tFactor l1 l2 := by
  unfold tFactor
  rw [hPrimeAvg_comm]

lemma sWeightL_comm (l1 l2 : Lab) : sWeightL l2 l1 = sWeightL l1 l2 := by
  unfold sWeightL
  rw [lPrimeAvg_comm]

lemma sWeightC_comm (l1 l2 : Lab) : sWeightC l2 l1 = sWeightC l1 l2 := by
  unfold sWeightC
  rw [cPrimeAvg_comm]

lemma sWeightH_comm (l1 l2 : Lab) : sWeightH l2 l1 = sWeightH l1 l2 := by
  unfold sWeightH
  rw [cPrimeAvg_comm, tFactor_comm]

lemma deltaTheta_comm (l1 l2 : Lab) : deltaTheta l2 l1 = deltaTheta l1 l2 := by
  unfold deltaTheta
  rw [hPrimeAvg_comm]

lemma rotC_comm (l1 l2 : Lab) : rotC l2 l1 = rotC l1 l2 := by
  unfold rotC
  rw [cPrimeAvg_comm]

lemma rotT_comm (l1 l2 : Lab) : rotT l2 l1 = rotT l1 l2 := by
  unfold rotT
  rw [rotC_comm, deltaTheta_comm]

lemma calculate_delta_e_76_symm (l1 l2 : Lab) :
    calculate_delta_e_76 l1 l2 = calculate_delta_e_76 l2 l1 := by
  unfold calculate_delta_e_76
  congr 1
  ring

lemma calculate_delta_e_2000_symm (kL kC kH : ℝ) (l1 l2 : Lab) :
    calculate_delta_e_2000 kL kC kH l1 l2 = calculate_delta_e_2000 kL kC kH l2 l1 := by
  unfold calculate_delta_e_2000
  rw [deltaLPrime_antisymm l1 l2, deltaCPrime_antisymm l1 l2,
    deltaBigHPrime_antisymm l1 l2, sWeightL_comm l1 l2, sWeightC_comm l1 l2,
    sWeightH_comm l1 l2, rotT_comm l1 l2]
  congr 1
  ring

/-! ## Sampling-rectangle derivation in `analyze_frame`
(`lib_basler_cmd_delta_2v.py`, lines 582-600) -/

/-- `calculate_pixels_per_cm(depth_in_meters)` (lines 569-580). -/
def calculate_pixels_per_cm (depth_in_meters : ℚ) : ℚ :=
  let d := if depth_in_meters ≤ 0 then 3/10 else depth_in_meters
  max 10 (30 * ((3/10) / d))

/-- The sampling-rectangle computation of `analyze_frame` (lines 588-600):
center at `(width // 2, height // 2)`, side `int(sample_size_cm *
pixels_per_cm)` pixels, each bound clamped with `max 0` / `min dimension`.
Returns `(x1, y1, x2, y2)`. -/
def sampling_area (width height : ℕ) (sample_size_cm pixels_per_cm : ℚ) :
    ℤ × ℤ × ℤ × ℤ :=
  let center_x : ℤ := (width / 2 : ℕ)
  let center_y : ℤ := (height / 2 : ℕ)
  let sample_size_pixels : ℤ := pyInt (sample_size_cm * pixels_per_cm)
  let half_size : ℤ := Int.fdiv sample_size_pixels 2
  (max 0 (center_x - half_size), max 0 (center_y - half_size),
   min (width : ℤ) (center_x + half_size), min (height : ℤ) (center_y + half_size))

lemma sampling_area_concrete : sampling_area 100 100 5 60 = (0, 0, 100, 100) := by
  unfold sampling_area pyInt
  rw [if_pos (by norm_num : (0:ℚ) ≤ 5 * 60),
    show (5 * 60 : ℚ) = ((300 : ℤ) : ℚ) by norm_num, Int.floor_intCast]
  decide

/-- Claim C4: for every frame with positive width and height, the sampling
rectangle derived in `analyze_frame` has side `int(sample_size_cm *
pixels_per_cm)` centered at `(width // 2, height // 2)` with each bound
independently clamped to `[0, dimension]`, so it never extends past the frame
edges; in particular for a 100×100 frame and a requested side of 300 the
clamped rectangle is exactly `(0, 0)-(100, 100)`. -/
theorem sampling_area_spec (width height : ℕ) (ssc ppc : ℚ) (x1 y1 x2 y2 : ℤ)
    (hw : 0 < width) (hh : 0 < height) (hsz : 0 ≤ ssc * ppc)
    (heq : sampling_area width height ssc ppc = (x1, y1, x2, y2)) :
    (x1 = max 0 (((width / 2 : ℕ) : ℤ) - Int.fdiv (pyInt (ssc * ppc)) 2) ∧
     y1 = max 0 (((height / 2 : ℕ) : ℤ) - Int.fdiv (pyInt (ssc * ppc)) 2) ∧
     x2 = min (width : ℤ) (((width / 2 : ℕ) : ℤ) + Int.fdiv (pyInt (ssc * ppc)) 2) ∧
     y2 = min (height : ℤ) (((height / 2 : ℕ) : ℤ) + Int.fdiv (pyInt (ssc * ppc)) 2)) ∧
    (0 ≤ x1 ∧ 0 ≤ y1 ∧ x1 ≤ x2 ∧ y1 ≤ y2 ∧ x2 ≤ width ∧ y2 ≤ height) ∧
    sampling_area 100 100 5 60 = (0, 0, 100, 100) := by
  unfold sampling_area at heq
  rw [Prod.mk.injEq, Prod.mk.injEq, Prod.mk.injEq] at heq
  obtain ⟨e1, e2, e3, e4⟩ := heq
  have hhalf : 0 ≤ Int.fdiv (pyInt (ssc * ppc)) 2 := by
    apply Int.fdiv_nonneg _ (by norm_num)
    unfold pyInt
    rw [if_pos hsz]
    exact Int.floor_nonneg.mpr hsz
  have hcx : (0 : ℤ) ≤ ((width / 2 : ℕ) : ℤ) := Int.natCast_nonneg _
  have hcy : (0 : ℤ) ≤ ((height / 2 : ℕ) : ℤ) := Int.natCast_nonneg _
  have hcxw : ((width / 2 : ℕ) : ℤ) ≤ (width : ℤ) := by
    exact_mod_cast Nat.div_le_self width 2
  have hcyh : ((height / 2 : ℕ) : ℤ) ≤ (height : ℤ) := by
    exact_mod_cast Nat.div_le_self height 2
  refine ⟨⟨e1.symm, e2.symm, e3.symm, e4.symm⟩, ⟨?_, ?_, ?_, ?_, ?_, ?_⟩,
    sampling_area_concrete⟩
  · rw [← e1]; exact le_max_left _ _
  · rw [← e2]; exact le_max_left _ _
  · rw [← e1, ← e3]
    apply max_le (le_min (Int.natCast_nonneg _) (by linarith))
    exact le_min (by linarith) (by linarith)
  · rw [← e2, ← e4]
    apply max_le (le_min (Int.natCast_nonneg _) (by linarith))
    exact le_min (by linarith) (by linarith)
  · rw [← e3]; exact min_le_left _ _
  · rw [← e4]; exact min_le_left _ _

/-- Witness for C4 at the 100×100 frame with requested side `5 * 60 = 300`. -/
theorem sampling_area_spec_witness :
    ((0 : ℤ) = max 0 (((100 / 2 : ℕ) : ℤ) - Int.fdiv (pyInt ((5 : ℚ) * 60)) 2) ∧
     (0 : ℤ) = max 0 (((100 / 2 : ℕ) : ℤ) - Int.fdiv (pyInt ((5 : ℚ) * 60)) 2) ∧
     (100 : ℤ) = min ((100 : ℕ) : ℤ) (((100 / 2 : ℕ) : ℤ) + Int.fdiv (pyInt ((5 : ℚ) * 60)) 2) ∧
     (100 : ℤ) = min ((100 : ℕ) : ℤ) (((100 / 2 : ℕ) : ℤ) + Int.fdiv (pyInt ((5 : ℚ) * 60)) 2)) ∧
    ((0 : ℤ) ≤ 0 ∧ (0 : ℤ) ≤ 0 ∧ (0 : ℤ) ≤ 100 ∧ (0 : ℤ) ≤ 100 ∧
      (100 : ℤ) ≤ (100 : ℕ) ∧ (100 : ℤ) ≤ (100 : ℕ)) ∧
    sampling_area 100 100 5 60 = (0, 0, 100, 100) :=
  sampling_area_spec 100 100 5 60 0 0 100 100 (by norm_num) (by norm_num)
    (by norm_num) sampling_area_concrete

/-! ### The `de2000` field of the bundle (Claim C1) -/

/-- The `de2000` entry of the bundle: line 442 computes CIEDE2000 only when
the selected method is `DE_METHOD_CIE2000`, otherwise it stores CIE76. -/
lemma ccd_de2000_eq (m : String) (l1 l2 : Lab) :
    (calculate_color_differences m l1 l2).de2000 =
      pyRound COLOR_DIFF_PRECISION
        (if m = DE_METHOD_CIE2000 then
          calculate_delta_e_2000 CIEDE2000_KL CIEDE2000_KC CIEDE2000_KH l1 l2
        else calculate_delta_e_76 l1 l2) := rfl

lemma roundHalfEven_abs_sub (x : ℝ) : |(roundHalfEven x : ℝ) - x| ≤ 1/2 := by
  unfold roundHalfEven
  split_ifs with h1 h2
  · rw [abs_sub_comm, h1, abs_of_nonneg (by norm_num : (0:ℝ) ≤ 1/2)]
  · push_cast
    rw [abs_of_nonneg (by linarith)]
    linarith
  · rw [abs_sub_comm]
    exact abs_sub_round x

lemma pyRound_abs_sub (p : ℕ) (x : ℝ) : |pyRound p x - x| ≤ 1/2 / 10^p := by
  unfold pyRound
  have h10 : (0:ℝ) < 10^p := by positivity
  have hrw : (roundHalfEven (x * 10^p) : ℝ) / 10^p - x
      = ((roundHalfEven (x * 10^p) : ℝ) - x * 10^p) / 10^p := by
    field_simp
    ring
  rw [hrw, abs_div, abs_of_pos h10]
  exact (div_le_div_right h10).mpr (roundHalfEven_abs_sub _)

lemma pyRound_twenty : pyRound 1 (20:ℝ) = 20 := by
  unfold pyRound roundHalfEven
  rw [show (20:ℝ) * 10^1 = ((200:ℤ):ℝ) by norm_num, Int.floor_intCast,
    round_intCast]
  rw [if_neg (by norm_num)]
  norm_num

/-- The first LAB triple of the C1 counterexample. -/
def cexA : Lab := ⟨0, 0, 0⟩

/-- The second LAB triple of the C1 counterexample. -/
def cexB : Lab := ⟨20, 0, 0⟩

lemma chroma_cexA : chroma cexA = 0 := by
  unfold chroma cexA
  norm_num

lemma chroma_cexB : chroma cexB = 0 := by
  unfold chroma cexB
  norm_num

lemma cAvg_cex : cAvg cexA cexB = 0 := by
  unfold cAvg
  rw [chroma_cexA, chroma_cexB]
  norm_num

lemma aPrime_cexAB : aPrime cexA cexB = 0 := by
  unfold aPrime cexA
  norm_num

lemma aPrime_cexBA : aPrime cexB cexA = 0 := by
  unfold aPrime cexB
  norm_num

lemma cPrime_cexAB : cPrime cexA cexB = 0 := by
  unfold cPrime
  rw [aPrime_cexAB]
  unfold cexA
  norm_num

lemma cPrime_cexBA : cPrime cexB cexA = 0 := by
  unfold cPrime
  rw [aPrime_cexBA]
  unfold cexB
  norm_num

lemma deltaLPrime_cex : deltaLPrime cexA cexB = 20 := by
  unfold deltaLPrime cexA cexB
  norm_num

lemma deltaCPrime_cex : deltaCPrime cexA cexB = 0 := by
  unfold deltaCPrime
  rw [cPrime_cexAB, cPrime_cexBA]
  norm_num

lemma deltaBigHPrime_cex : deltaBigHPrime cexA cexB = 0 := by
  unfold deltaBigHPrime
  rw [cPrime_cexAB, cPrime_cexBA]
  norm_num

lemma lPrimeAvg_cex : lPrimeAvg cexA cexB = 10 := by
  unfold lPrimeAvg cexA cexB
  norm_num

lemma cPrimeAvg_cex : cPrimeAvg cexA cexB = 0 := by
  unfold cPrimeAvg
  rw [cPrime_cexAB, cPrime_cexBA]
  norm_num

lemma sWeightC_cex : sWeightC cexA cexB = 1 := by
  unfold sWeightC
  rw [cPrimeAvg_cex]
  norm_num

lemma sWeightH_cex : sWeightH cexA cexB = 1 := by
  unfold sWeightH
  rw [cPrimeAvg_cex]
  ring

lemma sWeightL_cex : sWeightL cexA cexB = 1 + 24 / Real.sqrt 1620 := by
  unfold sWeightL
  rw [lPrimeAvg_cex]
  norm_num

lemma rotT_cex : rotT cexA cexB = 0 := by
  unfold rotT rotC
  rw [cPrimeAvg_cex]
  norm_num

lemma sqrt1620_bounds : 0 < Real.sqrt 1620 ∧ Real.sqrt 1620 ≤ 41 := by
  constructor
  · exact Real.sqrt_pos.mpr (by norm_num)
  · calc Real.sqrt 1620 ≤ Real.sqrt 1681 := Real.sqrt_le_sqrt (by norm_num)
      _ = 41 := by
        rw [show (1681:ℝ) = 41^2 by norm_num]
        exact Real.sqrt_sq (by norm_num)

lemma delta_e_2000_cex_value :
    calculate_delta_e_2000 CIEDE2000_KL CIEDE2000_KC CIEDE2000_KH cexA cexB
      = 20 / (1 + 24 / Real.sqrt 1620) := by
  unfold calculate_delta_e_2000 CIEDE2000_KL CIEDE2000_KC CIEDE2000_KH
  rw [deltaLPrime_cex, deltaCPrime_cex, deltaBigHPrime_cex, sWeightL_cex,
    sWeightC_cex, sWeightH_cex, rotT_cex]
  have hS : 0 < 1 + 24 / Real.sqrt 1620 := by
    have h := sqrt1620_bounds
    positivity
  rw [show (20 / (1 * (1 + 24 / Real.sqrt 1620)))^2 + (0 / (1 * 1))^2
      + (0 / (1 * 1))^2 + 0 * (0 / (1 * 1)) * (0 / (1 * 1))
      = (20 / (1 + 24 / Real.sqrt 1620))^2 by ring]
  exact Real.sqrt_sq (by positivity)

lemma delta_e_76_cex_value : calculate_delta_e_76 cexA cexB = 20 := by
  unfold calculate_delta_e_76 cexA cexB
  norm_num
  rw [show (400:ℝ) = 20^2 by norm_num]
  exact Real.sqrt_sq (by norm_num)

/-- Counterexample to Claim C1 as stated: with the default method
(`DEFAULT_DE_METHOD = "CIE76"`), the `de2000` field of the bundle for
`(0,0,0)` vs `(20,0,0)` is the rounded CIE76 value `20.0`, not the rounded
ten-step CIEDE2000 value (which is below 13). -/
theorem de2000_field_cex :
    (calculate_color_differences DEFAULT_DE_METHOD cexA cexB).de2000 ≠
      pyRound COLOR_DIFF_PRECISION
        (calculate_delta_e_2000 CIEDE2000_KL CIEDE2000_KC CIEDE2000_KH cexA cexB) := by
  rw [ccd_de2000_eq, if_neg (by decide), delta_e_76_cex_value,
    delta_e_2000_cex_value]
  unfold COLOR_DIFF_PRECISION
  rw [pyRound_twenty]
  obtain ⟨hpos, hle⟩ := sqrt1620_bounds
  have hS : (65:ℝ)/41 ≤ 1 + 24 / Real.sqrt 1620 := by
    have h2441 : (24:ℝ)/41 ≤ 24 / Real.sqrt 1620 :=
      div_le_div_of_nonneg_left (by norm_num) hpos hle
    linarith
  have hv : 20 / (1 + 24 / Real.sqrt 1620) ≤ 20 / ((65:ℝ)/41) := by
    apply div_le_div_of_nonneg_left (by norm_num) (by linarith) hS
  have hclose := pyRound_abs_sub 1 (20 / (1 + 24 / Real.sqrt 1620))
  rw [abs_le] at hclose
  intro hcontra
  rw [← hcontra] at hclose
  have : (20:ℝ) - 20 / (1 + 24 / Real.sqrt 1620) ≤ 1/2/10^1 := hclose.2
  have hv' : 20 / ((65:ℝ)/41) = 820/65 := by norm_num
  linarith

/-- Claim C1 (amended): the `de2000` field equals the rounded ten-step
CIEDE2000 value exactly when the selected method is `CIE2000`; when the
selected method is `CIE76` — which is the default — the `de2000` field
equals the rounded CIE76 value instead. -/
theorem de2000_field_spec (lab1 lab2 : Lab) :
    (calculate_color_differences DE_METHOD_CIE2000 lab1 lab2).de2000 =
      pyRound COLOR_DIFF_PRECISION
        (calculate_delta_e_2000 CIEDE2000_KL CIEDE2000_KC CIEDE2000_KH lab1 lab2) ∧
    (calculate_color_differences DE_METHOD_CIE76 lab1 lab2).de2000 =
      pyRound COLOR_DIFF_PRECISION (calculate_delta_e_76 lab1 lab2) ∧
    DEFAULT_DE_METHOD = DE_METHOD_CIE76 := by
  refine ⟨?_, ?_, rfl⟩
  · rw [ccd_de2000_eq, if_pos rfl]
  · rw [ccd_de2000_eq, if_neg (by decide)]

/-- Claim C8: both delta-E formulas vanish on identical inputs (including the
degenerate `a = b = 0` case) and are symmetric in their two arguments, for
all weighting factors (in particular the default `kL = kC = kH = 1`). -/
theorem delta_e_identity_and_symm :
    (∀ (A : Lab) (kL kC kH : ℝ),
      calculate_delta_e_76 A A = 0 ∧ calculate_delta_e_2000 kL kC kH A A = 0) ∧
    (∀ (A B : Lab) (kL kC kH : ℝ),
      calculate_delta_e_76 A B = calculate_delta_e_76 B A ∧
      calculate_delta_e_2000 kL kC kH A B = calculate_delta_e_2000 kL kC kH B A) :=
  ⟨fun A kL kC kH => ⟨calculate_delta_e_76_self A, calculate_delta_e_2000_self kL kC kH A⟩,
   fun A B kL kC kH => ⟨calculate_delta_e_76_symm A B, calculate_delta_e_2000_symm kL kC kH A B⟩⟩

end Basler
